import Mathlib

/-!
Verification of the shared-state synchronization core of the collaborative
retro-board application (apps/web/src/app/Board.tsx): the replicated board
model operations, the hydration loader, and the snapshot persister.

The replicated structures (LiveList / LiveObject) are modelled as plain Lean
lists and structures; the persisted snapshot row is a list of plain records.
Asynchronous storage results are modelled as explicit values, and the
persister-subscription lifecycle as a small event-step machine.
-/

namespace BoardSync

/-- In-memory replicated note: a LiveObject with an id and a text field
(Board.tsx line 14). -/
structure Note where
  id : String
  text : String
deriving DecidableEq

/-- In-memory replicated column: a LiveObject with an id, a title, and a
LiveList of notes (Board.tsx line 15). -/
structure Column where
  id : String
  title : String
  notes : List Note
deriving DecidableEq

/-- Plain persisted note record, as stored inside the snapshot row
(Board.tsx lines 42-46). -/
structure NoteRec where
  id : String
  text : String
deriving DecidableEq

/-- Plain persisted column record, as stored inside the snapshot row
(Board.tsx lines 42-46). -/
structure ColRec where
  id : String
  title : String
  notes : List NoteRec
deriving DecidableEq

/-- Hydration of one persisted note: new LiveObject(n) (Board.tsx line 53). -/
def noteOfRec (n : NoteRec) : Note :=
  { id := n.id, text := n.text }

/-- Hydration of one persisted column: a LiveObject carrying the persisted id
and title and a LiveList of the hydrated notes (Board.tsx lines 48-56). -/
def colOfRec (c : ColRec) : Column :=
  { id := c.id, title := c.title, notes := c.notes.map noteOfRec }

/-- Result of the maybeSingle snapshot fetch (Board.tsx lines 32-36): an
error message when the fetch failed, and the data field of the row when a row
with a non-null data field exists. -/
structure FetchReply where
  error : Option String
  data : Option (List ColRec)

/-- The part of the hydration effect that runs once the fetch has completed
(Board.tsx lines 37-58): on error, return; if a snapshot is present and the
board is empty at that moment, append one hydrated column per snapshot entry
in order; otherwise leave the board unchanged. -/
def hydrationWrite (reply : FetchReply) (b : List Column) : List Column :=
  match reply.error with
  | some _ => b
  | none =>
    match reply.data with
    | none => b
    | some snap => if b.length = 0 then b ++ snap.map colOfRec else b

/-- The whole hydration effect (Board.tsx lines 29-60): it returns early when
the columns handle is not yet available, and otherwise issues the snapshot
fetch before any emptiness check, then performs the guarded write. The second
component records whether a fetch was issued. -/
def hydrationEffect (columnsHandle : Option (List Column)) (reply : FetchReply) :
    Option (List Column) × Bool :=
  match columnsHandle with
  | none => (none, false)
  | some b => (some (hydrationWrite reply b), true)

/-- The note-serialization loop of the persister callback
(Board.tsx lines 77-81): walk the note list in order, reading id and text. -/
def serializeNotes : List Note → List NoteRec
  | [] => []
  | n :: rest => { id := n.id, text := n.text } :: serializeNotes rest

/-- The column-serialization loop of the persister callback
(Board.tsx lines 69-87): walk the column list in order, reading id and title
and serializing the nested notes. -/
def serializeBoard : List Column → List ColRec
  | [] => []
  | c :: rest =>
    { id := c.id, title := c.title, notes := serializeNotes c.notes } :: serializeBoard rest

/-- The row the persister upserts: keyed by the board id, carrying the
serialized columns (Board.tsx line 88). -/
structure UpsertRow where
  id : String
  data : List ColRec
deriving DecidableEq

/-- The persister change callback (Board.tsx lines 68-88): serialize the
current full column state and upsert it keyed by boardId. -/
def persistCallback (boardId : String) (cols : List Column) : UpsertRow :=
  { id := boardId, data := serializeBoard cols }

/-- readAll as the specification describes it: a point-in-time read of the
full structure, one plain record with id, title and notes per column in
column order, each notes field a list of plain records with id and text in
note order. Stated from the specification for comparison with the source
serialization. -/
def readAllSpec (b : List Column) : List ColRec :=
  b.map (fun c =>
    { id := c.id, title := c.title,
      notes := c.notes.map (fun n => { id := n.id, text := n.text }) })

/-- Point update of a list at an index; positions out of range are left
untouched, matching an edit through a handle obtained from an in-range
render. -/
def updateAt {α : Type} (f : α → α) : Nat → List α → List α
  | _, [] => []
  | 0, x :: xs => f x :: xs
  | n + 1, x :: xs => x :: updateAt f n xs

/-- Title edit on a column handle: column.set of the title field only
(Board.tsx line 138). -/
def setTitle (c : Column) (v : String) : Column :=
  { c with title := v }

/-- Text edit on a note handle: note.set of the text field only
(Board.tsx line 150). -/
def setText (n : Note) (v : String) : Note :=
  { n with text := v }

/-- Title edit addressed at board level by column index. -/
def setColumnTitle (b : List Column) (i : Nat) (v : String) : List Column :=
  updateAt (fun c => setTitle c v) i b

/-- Note text edit addressed at board level by column and note index. -/
def setNoteText (b : List Column) (i j : Nat) (v : String) : List Column :=
  updateAt (fun c => { c with notes := updateAt (fun n => setText n v) j c.notes }) i b

/-- addColumn (Board.tsx lines 96-105): returns without doing anything when
the columns handle is unavailable; otherwise pushes a fresh column with the
generated id, the title Column, and an empty note list. The generated
crypto.randomUUID value is the fresh parameter. -/
def addColumn (fresh : String) : Option (List Column) → Option (List Column)
  | none => none
  | some b => some (b ++ [{ id := fresh, title := "Column", notes := [] }])

/-- addNote (Board.tsx lines 107-111): pushes a fresh note with the generated
id and empty text onto the given column's note list. -/
def addNote (fresh : String) (c : Column) : Column :=
  { c with notes := c.notes ++ [{ id := fresh, text := "" }] }

/-- addNote addressed at board level by column index. -/
def addNoteAt (fresh : String) (i : Nat) (b : List Column) : List Column :=
  updateAt (addNote fresh) i b

/-- The column ids of a board, in order. -/
def colIds (b : List Column) : List String :=
  b.map Column.id

/-- The note ids of a board, per column, in order. -/
def noteIds (b : List Column) : List (List String) :=
  b.map (fun c => c.notes.map Note.id)

/-- Events in the life of the persister subscription effect
(Board.tsx lines 62-94): resolve is the getStorage continuation running
(which subscribes and assigns the unsubscribe variable), cleanup is the
effect teardown (which calls unsubscribe only if it was assigned). -/
inductive SubEvent where
  | resolve
  | cleanup
deriving DecidableEq

/-- State of the persister subscription effect: whether the unsubscribe
variable has been assigned, whether the deep subscription is currently
active, and whether teardown has run. -/
structure SubState where
  unsubSet : Bool
  active : Bool
  cleanedUp : Bool
deriving DecidableEq

/-- Initial state: unsubscribe unassigned, no subscription, not torn down
(Board.tsx line 63). -/
def initSub : SubState :=
  { unsubSet := false, active := false, cleanedUp := false }

/-- One lifecycle step. resolve runs the getStorage continuation
unconditionally, subscribing and assigning unsubscribe (Board.tsx lines
64-92, which contain no torn-down guard); cleanup marks teardown and calls
unsubscribe only when the variable was already assigned (Board.tsx line 93,
the optional call). -/
def subStep (s : SubState) : SubEvent → SubState
  | SubEvent.resolve => { s with unsubSet := true, active := true }
  | SubEvent.cleanup =>
    { s with cleanedUp := true, active := if s.unsubSet then false else s.active }

/-- Run the subscription lifecycle over a sequence of events. -/
def runSub (evs : List SubEvent) : SubState :=
  evs.foldl subStep initSub

/-- A deep-change callback (and hence an upsert) fires in a state exactly
when the subscription is active. -/
def callbackFires (s : SubState) : Bool :=
  s.active

/-! Helper lemmas shared by the claim theorems. -/

theorem serializeNotes_eq_map (ns : List Note) :
    serializeNotes ns = ns.map (fun n => { id := n.id, text := n.text }) := by
  induction ns with
  | nil => rfl
  | cons n rest ih => simp [serializeNotes, ih]

theorem serializeBoard_eq_readAll (b : List Column) :
    serializeBoard b = readAllSpec b := by
  induction b with
  | nil => rfl
  | cons c rest ih => simp [serializeBoard, readAllSpec, serializeNotes_eq_map, ih]

theorem map_noteOfRec_serializeNotes (ns : List Note) :
    (serializeNotes ns).map noteOfRec = ns := by
  induction ns with
  | nil => rfl
  | cons n rest ih => simp [serializeNotes, noteOfRec, ih]

theorem map_colOfRec_serializeBoard (b : List Column) :
    (serializeBoard b).map colOfRec = b := by
  induction b with
  | nil => rfl
  | cons c rest ih => simp [serializeBoard, colOfRec, map_noteOfRec_serializeNotes, ih]

theorem map_updateAt {α β : Type} (f : α → α) (g : α → β) (h : β → β)
    (hc : ∀ x, g (f x) = h (g x)) (i : Nat) (l : List α) :
    (updateAt f i l).map g = updateAt h i (l.map g) := by
  induction l generalizing i with
  | nil => cases i <;> rfl
  | cons x xs ih =>
    cases i with
    | zero => simp [updateAt, hc]
    | succ n => simp [updateAt, ih]

theorem updateAt_length {α : Type} (f : α → α) (i : Nat) (l : List α) :
    (updateAt f i l).length = l.length := by
  induction l generalizing i with
  | nil => cases i <;> rfl
  | cons x xs ih =>
    cases i with
    | zero => simp [updateAt]
    | succ n => simp [updateAt, ih]

theorem updateAt_id {α : Type} (i : Nat) (l : List α) :
    updateAt (fun x => x) i l = l := by
  induction l generalizing i with
  | nil => cases i <;> rfl
  | cons x xs ih =>
    cases i with
    | zero => rfl
    | succ n => simp [updateAt, ih]

theorem take_length_append {α : Type} (l t : List α) :
    (l ++ t).take l.length = l := by
  induction l with
  | nil => rfl
  | cons x xs ih => simp [ih]

theorem getLast_append_one {α : Type} (l : List α) (a : α) :
    (l ++ [a]).getLast? = some a := by
  rw [List.getLast?_append_cons]
  rfl

theorem hydrationWrite_ne_nil (reply : FetchReply) (b : List Column)
    (hne : b ≠ []) : hydrationWrite reply b = b := by
  unfold hydrationWrite
  cases he : reply.error with
  | some e => rfl
  | none =>
    cases hd : reply.data with
    | none => rfl
    | some snap =>
      have hlen : b.length ≠ 0 := by
        simpa [List.length_eq_zero] using hne
      simp [hlen]

/-! Claim theorems. -/

/-- Claim C1: if the board is non-empty at the moment hydration is about to
write (after the fetch has completed), hydration appends nothing: the board
is left exactly as it was, for every fetch reply. -/
theorem hydration_noop_on_nonempty (reply : FetchReply) (b : List Column)
    (hne : b ≠ []) : hydrationWrite reply b = b :=
  hydrationWrite_ne_nil reply b hne

/-- Witness for C1 at a concrete non-empty board and a present snapshot. -/
theorem hydration_noop_on_nonempty_witness :
    hydrationWrite
      { error := none, data := some [{ id := "c1", title := "T", notes := [] }] }
      [{ id := "c0", title := "A", notes := [] }] =
      [{ id := "c0", title := "A", notes := [] }] :=
  hydration_noop_on_nonempty _ _ (by decide)

/-- Claim C2: hydrating an empty board from a snapshot with N column entries
appends exactly N columns in snapshot order; the column at each index carries
that entry's persisted id, persisted title, and, in order, one note per
persisted note entry with the persisted id and text; no fresh ids appear. -/
theorem hydration_populates_empty (snap : List ColRec) :
    hydrationWrite { error := none, data := some snap } [] = snap.map colOfRec ∧
    (snap.map colOfRec).length = snap.length ∧
    ∀ i (h : i < snap.length),
      ((snap.map colOfRec).get ⟨i, by simpa using h⟩).id = (snap.get ⟨i, h⟩).id ∧
      ((snap.map colOfRec).get ⟨i, by simpa using h⟩).title = (snap.get ⟨i, h⟩).title ∧
      ((snap.map colOfRec).get ⟨i, by simpa using h⟩).notes =
        (snap.get ⟨i, h⟩).notes.map noteOfRec := by
  refine ⟨by simp [hydrationWrite], by simp, ?_⟩
  intro i h
  simp [colOfRec]

/-- Witness for C2 at a concrete two-column snapshot, checking index 0. -/
theorem hydration_populates_empty_witness :
    hydrationWrite
      { error := none,
        data := some [{ id := "c1", title := "Todo", notes := [{ id := "n1", text := "task" }] },
                      { id := "c2", title := "Done", notes := [] }] } [] =
      ([{ id := "c1", title := "Todo", notes := [{ id := "n1", text := "task" }] },
        { id := "c2", title := "Done", notes := [] }] : List ColRec).map colOfRec ∧
    ((([{ id := "c1", title := "Todo", notes := [{ id := "n1", text := "task" }] },
        { id := "c2", title := "Done", notes := [] }] : List ColRec).map colOfRec).get
        ⟨0, by decide⟩).id = "c1" ∧
    ((([{ id := "c1", title := "Todo", notes := [{ id := "n1", text := "task" }] },
        { id := "c2", title := "Done", notes := [] }] : List ColRec).map colOfRec).get
        ⟨0, by decide⟩).title = "Todo" := by
  have h := (hydration_populates_empty
    [{ id := "c1", title := "Todo", notes := [{ id := "n1", text := "task" }] },
     { id := "c2", title := "Done", notes := [] }]).2.2 0 (by decide)
  exact ⟨(hydration_populates_empty _).1, by simpa using h.1, by simpa using h.2.1⟩

/-- Claim C5: a fetch error, or a successful fetch with no snapshot row,
leaves the board untouched and raises nothing; the empty board stays empty in
both cases, and adding a column afterwards still works normally. -/
theorem hydration_fetch_failure_noop (e : String) (snap : List ColRec)
    (b : List Column) (fresh : String) :
    hydrationWrite { error := some e, data := none } b = b ∧
    hydrationWrite { error := some e, data := some snap } b = b ∧
    hydrationWrite { error := none, data := none } b = b ∧
    hydrationWrite { error := some e, data := none } [] = [] ∧
    hydrationWrite { error := none, data := none } ([] : List Column) = [] ∧
    addColumn fresh (some (hydrationWrite { error := none, data := none } [])) =
      some [{ id := fresh, title := "Column", notes := [] }] := by
  refine ⟨rfl, rfl, ?_, rfl, rfl, rfl⟩
  unfold hydrationWrite
  rfl

/-- Claim C10: when the replicated column sequence is not yet available (the
columns handle is undefined), addColumn is a silent no-op: it returns nothing
appended and no error, leaving the board state unchanged. -/
theorem addColumn_no_handle_noop (fresh : String) :
    addColumn fresh none = none ∧
    (addColumn fresh none).isNone = true := ⟨rfl, rfl⟩

/-- Claim C3: on every invocation of the persister change callback, the
upserted row is keyed by boardId and its payload equals the readAll-style
plain-record serialization of the board state at the moment of the callback:
one id-title-notes record per column in column order, each notes field a list
of id-text records in note order. -/
theorem persist_payload_is_readAll (boardId : String) (b : List Column) :
    persistCallback boardId b = { id := boardId, data := readAllSpec b } := by
  unfold persistCallback
  rw [serializeBoard_eq_readAll]

/-- Claim C4: serializing a board state with the persister's traversal and
hydrating a fresh empty board from the resulting snapshot reproduces the
board exactly, ids, titles, texts and order included, so the read-out of the
hydrated board equals that of the original. -/
theorem serialize_hydrate_round_trip (S : List Column) :
    hydrationWrite { error := none, data := some (serializeBoard S) } [] = S ∧
    serializeBoard
        (hydrationWrite { error := none, data := some (serializeBoard S) } []) =
      serializeBoard S := by
  have h : hydrationWrite { error := none, data := some (serializeBoard S) } [] = S := by
    simp [hydrationWrite, map_colOfRec_serializeBoard]
  exact ⟨h, by rw [h]⟩

/-- Claim C6: addColumn appends, as the new last element of the column list,
a column with the freshly generated id, the title the operation supplies and
an empty note list, moving and modifying no existing element; addNote
appends, as the new last note of the given column, a note with the freshly
generated id and empty text, leaving the column's id, title and every
existing note untouched. -/
theorem append_operations_fresh_at_end (fresh : String) (b : List Column) (c : Column) :
    addColumn fresh (some b) =
      some (b ++ [{ id := fresh, title := "Column", notes := [] }]) ∧
    (b ++ [({ id := fresh, title := "Column", notes := [] } : Column)]).length =
      b.length + 1 ∧
    (b ++ [({ id := fresh, title := "Column", notes := [] } : Column)]).take b.length =
      b ∧
    (b ++ [({ id := fresh, title := "Column", notes := [] } : Column)]).getLast? =
      some { id := fresh, title := "Column", notes := [] } ∧
    (addNote fresh c).id = c.id ∧
    (addNote fresh c).title = c.title ∧
    (addNote fresh c).notes.length = c.notes.length + 1 ∧
    (addNote fresh c).notes.take c.notes.length = c.notes ∧
    (addNote fresh c).notes.getLast? = some { id := fresh, text := "" } := by
  refine ⟨rfl, by simp, take_length_append b _, getLast_append_one b _, rfl, rfl,
    by simp [addNote], ?_, ?_⟩
  · simp [addNote, take_length_append]
  · simp [addNote, getLast_append_one]

/-- Claim C7: no mutation operation changes the id of any existing column or
note: a title edit and a text edit leave both id families untouched, addNote
leaves all column ids in place and only appends the fresh id to the target
column's note-id list, and addColumn leaves all existing ids in place and
only appends the fresh column id with an empty note-id list. -/
theorem mutation_preserves_ids (b : List Column) (i j : Nat) (v fresh : String) :
    colIds (setColumnTitle b i v) = colIds b ∧
    noteIds (setColumnTitle b i v) = noteIds b ∧
    colIds (setNoteText b i j v) = colIds b ∧
    noteIds (setNoteText b i j v) = noteIds b ∧
    colIds (addNoteAt fresh i b) = colIds b ∧
    noteIds (addNoteAt fresh i b) = updateAt (fun l => l ++ [fresh]) i (noteIds b) ∧
    addColumn fresh (some b) =
      some (b ++ [{ id := fresh, title := "Column", notes := [] }]) ∧
    colIds (b ++ [{ id := fresh, title := "Column", notes := [] }]) =
      colIds b ++ [fresh] ∧
    noteIds (b ++ [{ id := fresh, title := "Column", notes := [] }]) =
      noteIds b ++ [[]] := by
  refine ⟨?_, ?_, ?_, ?_, ?_, ?_, rfl, by simp [colIds], by simp [noteIds]⟩
  · simp only [colIds, setColumnTitle]
    rw [map_updateAt (fun c => setTitle c v) Column.id (fun s => s) (fun x => rfl) i b,
      updateAt_id]
  · simp only [noteIds, setColumnTitle]
    rw [map_updateAt (fun c => setTitle c v) (fun c => c.notes.map Note.id)
        (fun s => s) (fun x => rfl) i b,
      updateAt_id]
  · simp only [colIds, setNoteText]
    rw [map_updateAt
        (fun c => { c with notes := updateAt (fun n => setText n v) j c.notes })
        Column.id (fun s => s) (fun x => rfl) i b,
      updateAt_id]
  · have hc : ∀ c : Column,
        (updateAt (fun n => setText n v) j c.notes).map Note.id =
          c.notes.map Note.id := by
      intro c
      rw [map_updateAt (fun n => setText n v) Note.id (fun s => s) (fun n => rfl)
          j c.notes,
        updateAt_id]
    simp only [noteIds, setNoteText]
    rw [map_updateAt
        (fun c => { c with notes := updateAt (fun n => setText n v) j c.notes })
        (fun c => c.notes.map Note.id) (fun s => s) hc i b,
      updateAt_id]
  · simp only [colIds, addNoteAt]
    rw [map_updateAt (addNote fresh) Column.id (fun s => s) (fun x => rfl) i b,
      updateAt_id]
  · have hc : ∀ c : Column,
        (addNote fresh c).notes.map Note.id = c.notes.map Note.id ++ [fresh] := by
      intro c
      simp [addNote]
    simp only [noteIds, addNoteAt]
    rw [map_updateAt (addNote fresh) (fun c => c.notes.map Note.id)
        (fun l => l ++ [fresh]) hc i b]

/-- Claim C8 counterexample: a hydration run against a board that already has
one column still issues the snapshot fetch. -/
theorem fetch_issued_despite_nonempty :
    (hydrationEffect (some [{ id := "c0", title := "A", notes := [] }])
      { error := none, data := none }).2 = true ∧
    ([{ id := "c0", title := "A", notes := ([] : List Note) }] : List Column).length ≠ 0 :=
  ⟨rfl, by decide⟩

/-- Claim C8 amended: the hydration effect issues the snapshot fetch whenever
the columns handle is available, regardless of the board's length; emptiness
is checked only after the fetch, immediately before writing, so a run against
a non-empty board performs the fetch but appends nothing, and no fetch is
issued while the handle is unavailable. -/
theorem fetch_unconditional_write_guarded (b : List Column) (reply : FetchReply) :
    (hydrationEffect (some b) reply).2 = true ∧
    (hydrationEffect none reply).2 = false ∧
    (hydrationEffect none reply).1 = none ∧
    (b ≠ [] → (hydrationEffect (some b) reply).1 = some b) := by
  refine ⟨rfl, rfl, rfl, fun hne => ?_⟩
  show some (hydrationWrite reply b) = some b
  rw [hydrationWrite_ne_nil reply b hne]

/-- Witness for the amended C8 at a concrete non-empty board. -/
theorem fetch_unconditional_write_guarded_witness :
    (hydrationEffect (some [{ id := "c0", title := "B", notes := [] }])
      { error := none, data := some [] }).1 =
      some [{ id := "c0", title := "B", notes := [] }] :=
  (fetch_unconditional_write_guarded _ _).2.2.2 (by decide)

/-- Claim C9 failing run: when teardown happens before the getStorage promise
resolves, the continuation still subscribes afterwards and nothing ever
unsubscribes, so after the session has ended the subscription is still active
and the change callback, hence the upsert, still fires. -/
theorem teardown_before_resolve_leaks :
    (runSub [SubEvent.cleanup, SubEvent.resolve]).cleanedUp = true ∧
    (runSub [SubEvent.cleanup, SubEvent.resolve]).active = true ∧
    callbackFires (runSub [SubEvent.cleanup, SubEvent.resolve]) = true :=
  ⟨rfl, rfl, rfl⟩

/-- On the ordinary path, where the getStorage continuation runs before
teardown, the cleanup does release the subscription. -/
theorem resolve_then_teardown_releases :
    (runSub [SubEvent.resolve, SubEvent.cleanup]).active = false ∧
    callbackFires (runSub [SubEvent.resolve, SubEvent.cleanup]) = false :=
  ⟨rfl, rfl⟩

end BoardSync
